import Mathlib

/-!
Shallow embedding of the persistent-cursor, hash-index, transaction-system and
row-undo code of the embedded-innodb repository (src/btr/btr0pcur.cc,
src/ha/ha0ha.cc, src/include/trx0sys.h, src/row/row0undo.cc), together with
theorems checking the natural-language specification against it.

Machine pointers are modelled as natural numbers (0 = NULL); records are lists
of field values; assertion failures (ut_a / ut_error) are modelled by functions
returning none.  External collaborators whose code is not under src/ (buffer
pool, dict/rem comparators, tree search) are modelled from the specification,
each marked by a doc comment starting with: Modelled from the spec.
-/

namespace EmbeddedInnoDB

/-- Sentinel page number meaning no such page (fil0fil FIL_NULL). -/
def FIL_NULL : Nat := 0xFFFFFFFF

/-- A record: the list of its field values, ordered as in the index. -/
abbrev Rec := List Nat

/-- A B-tree page: its ordered user records and its two sibling page numbers. -/
structure Page where
  recs : List Rec
  next_page : Nat
  prev_page : Nat
deriving DecidableEq

/-- A buffer-pool block: the page frame plus the block's modify clock. -/
structure Block where
  page : Page
  modify_clock : Nat
deriving DecidableEq

/-- Position of a page cursor within one page: the infimum sentinel, the
supremum sentinel, or the i-th user record. -/
inductive PagePos where
  | infimum
  | supremum
  | user (i : Nat)
deriving DecidableEq

/-- btr_pcur_t::pos_state values. -/
inductive PcurPosState where
  | BTR_PCUR_NOT_POSITIONED
  | BTR_PCUR_IS_POSITIONED
  | BTR_PCUR_WAS_POSITIONED
deriving DecidableEq

/-- btr_pcur_t::old_stored values. -/
inductive PcurOldStored where
  | BTR_PCUR_OLD_STORED
  | BTR_PCUR_OLD_NOT_STORED
deriving DecidableEq

/-- btr_pcur_t::rel_pos values. -/
inductive PcurRelPos where
  | BTR_PCUR_ON
  | BTR_PCUR_BEFORE
  | BTR_PCUR_AFTER
  | BTR_PCUR_BEFORE_FIRST_IN_TREE
  | BTR_PCUR_AFTER_LAST_IN_TREE
deriving DecidableEq

/-- Latch modes used by the persistent cursor code. -/
inductive LatchMode where
  | BTR_NO_LATCHES
  | BTR_SEARCH_LEAF
  | BTR_MODIFY_LEAF
  | BTR_SEARCH_PREV
  | BTR_MODIFY_PREV
  | BTR_MODIFY_TREE
deriving DecidableEq

/-- Page-cursor search modes (ib_srch_mode_t). -/
inductive SrchMode where
  | PAGE_CUR_G
  | PAGE_CUR_GE
  | PAGE_CUR_L
  | PAGE_CUR_LE
deriving DecidableEq

/-- The part of a dict_index_t the cursor code depends on: the number of
fields of the order-determining column prefix (dict_index_get_n_unique_in_tree). -/
structure DictIndex where
  n_ord_fields : Nat
deriving DecidableEq

/-- The persistent cursor btr_pcur_t.  The embedded btr_cur / page_cur pair is
modelled by the current block id and the position on that block's page. -/
structure BtrPcur where
  pos_state : PcurPosState
  latch_mode : LatchMode
  rel_pos : PcurRelPos
  old_stored : PcurOldStored
  old_rec : Option Rec
  old_n_fields : Nat
  block_when_stored : Nat
  modify_clock : Nat
  search_mode : SrchMode
  index : DictIndex
  cur_block_id : Nat
  page_pos : PagePos
deriving DecidableEq

/-- The buffer pool: the current block behind each block (page) identifier. -/
structure World where
  pool : Nat → Block

/-- btr_pcur_get_block: the block the cursor is currently positioned on. -/
def btr_pcur_get_block (w : World) (c : BtrPcur) : Block :=
  w.pool c.cur_block_id

/-- buf_block_get_modify_clock: read the block's modify clock. -/
def buf_block_get_modify_clock (b : Block) : Nat :=
  b.modify_clock

/-- page_get_n_recs: number of user records on the page. -/
def page_get_n_recs (p : Page) : Nat :=
  p.recs.length

/-- Modelled from the spec: dict_index_copy_rec_order_pfx (dict0dict, not under
src/) copies the index's order-determining field prefix of a record and reports
the number of copied fields. -/
def dict_index_copy_rec_order_pfx (index : DictIndex) (r : Rec) : Rec × Nat :=
  (r.take index.n_ord_fields, index.n_ord_fields)

/-- btr_pcur_store_position (src/btr/btr0pcur.cc lines 71-138).  The ut_a
assertion failures (cursor not positioned, no latches held, empty page with a
live sibling, dangling page-cursor record) are modelled as none. -/
def btr_pcur_store_position (w : World) (c : BtrPcur) : Option BtrPcur :=
  if c.pos_state ≠ PcurPosState.BTR_PCUR_IS_POSITIONED then none
  else if c.latch_mode = LatchMode.BTR_NO_LATCHES then none
  else
    let block := btr_pcur_get_block w c
    let page := block.page
    if page_get_n_recs page = 0 then
      if page.next_page ≠ FIL_NULL ∨ page.prev_page ≠ FIL_NULL then none
      else
        some { c with
          old_stored := PcurOldStored.BTR_PCUR_OLD_STORED,
          rel_pos :=
            if c.page_pos = PagePos.supremum then
              PcurRelPos.BTR_PCUR_AFTER_LAST_IN_TREE
            else
              PcurRelPos.BTR_PCUR_BEFORE_FIRST_IN_TREE }
    else
      let anchor_rel : Option Rec × PcurRelPos :=
        match c.page_pos with
        | PagePos.supremum => (page.recs.getLast?, PcurRelPos.BTR_PCUR_AFTER)
        | PagePos.infimum => (page.recs.head?, PcurRelPos.BTR_PCUR_BEFORE)
        | PagePos.user i => (page.recs.get? i, PcurRelPos.BTR_PCUR_ON)
      match anchor_rel.1 with
      | none => none
      | some anchor =>
        let copied := dict_index_copy_rec_order_pfx c.index anchor
        some { c with
          rel_pos := anchor_rel.2,
          old_stored := PcurOldStored.BTR_PCUR_OLD_STORED,
          old_rec := some copied.1,
          old_n_fields := copied.2,
          block_when_stored := c.cur_block_id,
          modify_clock := buf_block_get_modify_clock block }

/-- btr_pcur_get_rec: the user record under the page cursor, when the cursor
sits on one. -/
def btr_pcur_get_rec (w : World) (c : BtrPcur) : Option Rec :=
  match c.page_pos with
  | PagePos.user i => (btr_pcur_get_block w c).page.recs.get? i
  | _ => none

/-- btr_pcur_is_on_user_rec: the page cursor sits on a user record (neither
sentinel). -/
def btr_pcur_is_on_user_rec (w : World) (c : BtrPcur) : Bool :=
  (btr_pcur_get_rec w c).isSome

/-- Lexicographic comparison of field-value lists, stopping when the first
list is exhausted (a data tuple compares equal to any record it is a field
prefix of). -/
def cmp_fields : List Nat → List Nat → Int
  | [], _ => 0
  | _ :: _, [] => 1
  | a :: as, b :: bs =>
    if a < b then -1 else if b < a then 1 else cmp_fields as bs

/-- Modelled from the spec: cmp_dtuple_rec (rem0cmp, not under src/) compares
the search tuple's fields against the record and returns -1, 0 or 1. -/
def cmp_dtuple_rec (tuple : Rec) (r : Rec) : Int :=
  cmp_fields tuple r

/-- Modelled from the spec: dict_index_build_data_tuple (dict0dict, not under
src/) rebuilds a search tuple of n_fields fields from the stored record
prefix. -/
def dict_index_build_data_tuple (r : Rec) (n_fields : Nat) : Rec :=
  r.take n_fields

/-- Environment for a restore_position call: the answers of the external
collaborators that are not under src/ (buffer-pool residency for the
optimistic path, the landing of btr_cur_open_at_index_side and of the
pessimistic tree search). -/
structure RestoreEnv where
  resident : Bool
  edge_block_id : Nat
  edge_pos : PagePos
  land_block_id : Nat
  land_pos : PagePos
deriving DecidableEq

/-- Modelled from the spec: buf_page_optimistic_get (buf0buf, not under src/)
succeeds iff the page is still resident and uncontended and the block's
current modify clock equals the expected one. -/
def buf_page_optimistic_get (resident : Bool) (b : Block) (expected_clock : Nat) : Bool :=
  resident && decide (b.modify_clock = expected_clock)

/-- Modelled from the spec: btr_pcur_open_with_no_init (btr0pcur.ic, not under
src/) runs the tree search (its landing is the environment's answer), sets the
cursor's search mode to the given mode, records the latch mode and marks the
cursor positioned. -/
def btr_pcur_open_with_no_init (e : RestoreEnv) (mode : SrchMode) (latch : LatchMode)
    (c : BtrPcur) : BtrPcur :=
  { c with
    cur_block_id := e.land_block_id,
    page_pos := e.land_pos,
    search_mode := mode,
    latch_mode := latch,
    pos_state := PcurPosState.BTR_PCUR_IS_POSITIONED }

/-- Modelled from the spec: btr_cur_open_at_index_side (btr0cur, not under
src/) positions the embedded tree cursor at the leftmost or rightmost leaf
record (the landing is the environment's answer); it touches no other pcur
field. -/
def btr_cur_open_at_index_side (e : RestoreEnv) (c : BtrPcur) : BtrPcur :=
  { c with cur_block_id := e.edge_block_id, page_pos := e.edge_pos }

/-- Result of btr_pcur_restore_position_func: the updated cursor, the return
value, whether a tree search was performed, and the search mode passed to the
pessimistic re-open (none when that branch did not run). -/
structure RestoreResult where
  cursor : BtrPcur
  ret : Bool
  did_search : Bool
  pess_mode : Option SrchMode
deriving DecidableEq

/-- btr_pcur_restore_position_func (src/btr/btr0pcur.cc lines 181-306).  The
ut_error on a cursor without a stored position or with an invalid pos_state,
and the ut_a assertions on old_rec / old_n_fields, are modelled as none. -/
def btr_pcur_restore_position_func (w : World) (e : RestoreEnv)
    (latch_mode : LatchMode) (c : BtrPcur) : Option RestoreResult :=
  if c.old_stored ≠ PcurOldStored.BTR_PCUR_OLD_STORED then none
  else if c.pos_state ≠ PcurPosState.BTR_PCUR_WAS_POSITIONED ∧
          c.pos_state ≠ PcurPosState.BTR_PCUR_IS_POSITIONED then none
  else if c.rel_pos = PcurRelPos.BTR_PCUR_AFTER_LAST_IN_TREE ∨
          c.rel_pos = PcurRelPos.BTR_PCUR_BEFORE_FIRST_IN_TREE then
    let c1 := btr_cur_open_at_index_side e c
    some ⟨{ c1 with block_when_stored := c1.cur_block_id }, false, true, none⟩
  else
    match c.old_rec with
    | none => none
    | some stored_rec =>
      if c.old_n_fields = 0 then none
      else if (latch_mode = LatchMode.BTR_SEARCH_LEAF ∨
               latch_mode = LatchMode.BTR_MODIFY_LEAF) ∧
              buf_page_optimistic_get e.resident (w.pool c.block_when_stored)
                c.modify_clock then
        let c1 := { c with pos_state := PcurPosState.BTR_PCUR_IS_POSITIONED }
        if c.rel_pos = PcurRelPos.BTR_PCUR_ON then
          some ⟨{ c1 with latch_mode := latch_mode }, true, false, none⟩
        else
          some ⟨c1, false, false, none⟩
      else
        let tuple := dict_index_build_data_tuple stored_rec c.old_n_fields
        let old_mode := c.search_mode
        let mode :=
          match c.rel_pos with
          | PcurRelPos.BTR_PCUR_ON => SrchMode.PAGE_CUR_LE
          | PcurRelPos.BTR_PCUR_AFTER => SrchMode.PAGE_CUR_G
          | _ => SrchMode.PAGE_CUR_L
        let c2 := btr_pcur_open_with_no_init e mode latch_mode c
        let c3 := { c2 with search_mode := old_mode }
        if c3.rel_pos = PcurRelPos.BTR_PCUR_ON ∧
           btr_pcur_is_on_user_rec w c3 = true ∧
           cmp_dtuple_rec tuple ((btr_pcur_get_rec w c3).getD []) = 0 then
          some ⟨{ c3 with
                   block_when_stored := c3.cur_block_id,
                   modify_clock :=
                     buf_block_get_modify_clock (w.pool c3.cur_block_id),
                   old_stored := PcurOldStored.BTR_PCUR_OLD_STORED },
                true, true, some mode⟩
        else
          match btr_pcur_store_position w c3 with
          | none => none
          | some c4 => some ⟨c4, false, true, some mode⟩

/-- btr_pcur_is_after_last_on_page: the page cursor sits on the supremum. -/
def btr_pcur_is_after_last_on_page (c : BtrPcur) : Bool :=
  decide (c.page_pos = PagePos.supremum)

/-- btr_pcur_move_to_next_page (src/btr/btr0pcur.cc lines 333-365): discard
the stored position, fetch the right sibling and set the page cursor before
its first record.  The ut_a on pos_state is modelled as none; latch handling
and the flush flag are buffer-pool state outside this model. -/
def btr_pcur_move_to_next_page (w : World) (c : BtrPcur) : Option BtrPcur :=
  if c.pos_state ≠ PcurPosState.BTR_PCUR_IS_POSITIONED then none
  else
    let page := (btr_pcur_get_block w c).page
    let next_page_no := page.next_page
    some { c with
      old_stored := PcurOldStored.BTR_PCUR_OLD_NOT_STORED,
      cur_block_id := next_page_no,
      page_pos := PagePos.infimum }

/-- btr_pcur_move_backward_from_page (src/btr/btr0pcur.cc lines 367-427).
The ut_a on pos_state and the ut_error on a non-leaf latch mode are modelled
as none; left_block_id is the tree cursor's left_block side pointer filled in
by the restore's descent. -/
def btr_pcur_move_backward_from_page (w : World) (e : RestoreEnv)
    (left_block_id : Nat) (c : BtrPcur) : Option BtrPcur :=
  if c.pos_state ≠ PcurPosState.BTR_PCUR_IS_POSITIONED then none
  else
    let latch_mode := c.latch_mode
    let latch_mode2 :=
      if latch_mode = LatchMode.BTR_SEARCH_LEAF then
        some LatchMode.BTR_SEARCH_PREV
      else if latch_mode = LatchMode.BTR_MODIFY_LEAF then
        some LatchMode.BTR_MODIFY_PREV
      else none
    match latch_mode2 with
    | none => none
    | some latch_mode2 =>
      match btr_pcur_store_position w c with
      | none => none
      | some c1 =>
        match btr_pcur_restore_position_func w e latch_mode2 c1 with
        | none => none
        | some res =>
          let c2 := res.cursor
          let page := (btr_pcur_get_block w c2).page
          let prev_page_no := page.prev_page
          let c3 :=
            if prev_page_no = FIL_NULL then c2
            else if c2.page_pos = PagePos.infimum then
              { c2 with cur_block_id := left_block_id, page_pos := PagePos.supremum }
            else c2
          some { c3 with
            latch_mode := latch_mode,
            old_stored := PcurOldStored.BTR_PCUR_OLD_NOT_STORED }

/-- btr_pcur_open_on_user_rec_func (src/btr/btr0pcur.cc lines 436-464).
The call to btr_pcur_open_func is the external tree search; its landing is
the opened argument.  advance stands for btr_pcur_move_to_next_user_rec
(btr0pcur.ic, not under src/).  The ut_error on the PAGE_CUR_L / PAGE_CUR_LE
modes is modelled as none. -/
def btr_pcur_open_on_user_rec_func (opened : BtrPcur) (advance : BtrPcur → BtrPcur)
    (mode : SrchMode) : Option BtrPcur :=
  match mode with
  | SrchMode.PAGE_CUR_GE | SrchMode.PAGE_CUR_G =>
    if btr_pcur_is_after_last_on_page opened then some (advance opened)
    else some opened
  | SrchMode.PAGE_CUR_LE | SrchMode.PAGE_CUR_L => none

/-- TRX_SYS_TRX_ID_WRITE_MARGIN (src/include/trx0sys.h line 103). -/
def TRX_SYS_TRX_ID_WRITE_MARGIN : Nat := 256

/-- The transaction-system state the id allocator touches: the max_trx_id
counter and the log of the id ceilings written to the header page. -/
structure TrxSys where
  m_max_trx_id : Nat
  header_writes : List Nat
deriving DecidableEq

/-- Modelled from the spec: Trx_sys::flush_max_trx_id (declared in
src/include/trx0sys.h line 177, body not under src/) writes the new id
ceiling, max_trx_id rounded up by the write margin, to the TRX_SYS_TRX_ID_STORE
field of the header page under an MTR. -/
def flush_max_trx_id (s : TrxSys) : TrxSys :=
  { s with header_writes :=
      s.header_writes ++ [s.m_max_trx_id + TRX_SYS_TRX_ID_WRITE_MARGIN] }

/-- Trx_sys::get_new_trx_id (src/include/trx0sys.h lines 250-270): flush the
ceiling when the current max_trx_id is divisible by the write margin, then
return and post-increment max_trx_id. -/
def get_new_trx_id (s : TrxSys) : Nat × TrxSys :=
  let s1 :=
    if s.m_max_trx_id % TRX_SYS_TRX_ID_WRITE_MARGIN = 0 then flush_max_trx_id s
    else s
  (s1.m_max_trx_id, { s1 with m_max_trx_id := s1.m_max_trx_id + 1 })

/-- n successive calls of get_new_trx_id, collecting the returned ids. -/
def get_new_trx_id_calls : Nat → TrxSys → List Nat × TrxSys
  | 0, s => ([], s)
  | n + 1, s =>
    let p := get_new_trx_id s
    let q := get_new_trx_id_calls n p.2
    (p.1 :: q.1, q.2)

/-- A node of the chained hash table (ha_node_t): its fold value and its data
pointer. -/
structure HaNode where
  fold : Nat
  data : Nat
deriving DecidableEq

/-- The chained hash table (hash_table_t): one chain per cell. -/
structure HashTable where
  cells : List (List HaNode)
deriving DecidableEq

/-- hash_get_n_cells: number of cells of the table. -/
def hash_get_n_cells (t : HashTable) : Nat :=
  t.cells.length

/-- Modelled from the spec: hash_calc_hash (hash0hash, not under src/) maps a
fold value to the index of its cell. -/
def hash_calc_hash (fold : Nat) (t : HashTable) : Nat :=
  fold % hash_get_n_cells t

/-- The while loop of ha_insert_for_fold_func: update the data pointer of the
first chain node carrying the given fold, or report that none does. -/
def ha_chain_update_first (fold data : Nat) : List HaNode → Option (List HaNode)
  | [] => none
  | n :: rest =>
    if n.fold = fold then some ({ n with data := data } :: rest)
    else (ha_chain_update_first fold data rest).map (n :: ·)

/-- ha_insert_for_fold_func (src/ha/ha0ha.cc lines 112-183).  alloc_ok is
whether mem_heap_alloc on the stripe's btr-search arena succeeds; on failure
the function returns false and the table is unchanged.  A fresh node is
appended at the end of the cell's chain. -/
def ha_insert_for_fold_func (alloc_ok : Bool) (t : HashTable) (fold data : Nat) :
    Bool × HashTable :=
  let h := hash_calc_hash fold t
  let chain := t.cells.getD h []
  match ha_chain_update_first fold data chain with
  | some chain1 => (true, { cells := t.cells.set h chain1 })
  | none =>
    if alloc_ok then (true, { cells := t.cells.set h (chain ++ [⟨fold, data⟩]) })
    else (false, t)

/-- A row image, as built by row_build: the list of its column values. -/
abbrev Row := List Nat

/-- The fields of Undo_node that row_undo_search_clust_to_pcur reads or
writes.  update mirrors whether node->update is set (MODIFY undo);
pcur_stored records that store_position ran on the node's pcur. -/
structure UndoNode where
  roll_ptr : Nat
  update : Bool
  row : Option Row
  undo_row : Option Row
  ext : Option Nat
  undo_ext : Option Nat
  pcur_stored : Bool
deriving DecidableEq

/-- Modelled from the spec: the answers of the external collaborators of
row_undo_search_clust_to_pcur that are not under src/ — whether
row_search_on_row_ref finds the record of node->ref, the roll pointer
row_get_rec_roll_ptr reads off the landing record, the row image row_build
produces (with its external-field descriptor), and the effect of
row_upd_replace on a copy of that image (with its descriptor). -/
structure UndoEnv where
  found : Bool
  rec_roll_ptr : Nat
  built_row : Row
  built_ext : Option Nat
  replace : Row → Row
  replaced_ext : Option Nat

/-- Mini-transaction states (mtr_t). -/
inductive MtrState where
  | MTR_ACTIVE
  | MTR_COMMITTED
deriving DecidableEq

/-- row_undo_search_clust_to_pcur (src/row/row0undo.cc lines 135-190).  The
third component is the state of the local mtr when the function returns. -/
def row_undo_search_clust_to_pcur (e : UndoEnv) (node : UndoNode) :
    Bool × UndoNode × MtrState :=
  if ¬ e.found = true ∨ node.roll_ptr ≠ e.rec_roll_ptr then
    (false, node, MtrState.MTR_COMMITTED)
  else
    let node1 := { node with row := some e.built_row, ext := e.built_ext }
    let node2 :=
      if node1.update then
        { node1 with
          undo_row := some (e.replace e.built_row),
          undo_ext := e.replaced_ext }
      else
        { node1 with undo_row := none, undo_ext := none }
    (true, { node2 with pcur_stored := true }, MtrState.MTR_COMMITTED)

/-- On the optimistic fast path (stored cursor, non-sentinel rel_pos, leaf
latch mode, successful optimistic page reacquisition) restore_position only
marks the cursor positioned, assigns the latch mode in the rel_pos = ON case,
and returns whether rel_pos = ON, with no tree search. -/
lemma restore_optimistic_eq (w : World) (e : RestoreEnv) (latch : LatchMode)
    (c : BtrPcur) (r : Rec)
    (h1 : c.old_stored = PcurOldStored.BTR_PCUR_OLD_STORED)
    (h2 : c.pos_state = PcurPosState.BTR_PCUR_WAS_POSITIONED ∨
          c.pos_state = PcurPosState.BTR_PCUR_IS_POSITIONED)
    (h3 : c.rel_pos = PcurRelPos.BTR_PCUR_ON ∨
          c.rel_pos = PcurRelPos.BTR_PCUR_BEFORE ∨
          c.rel_pos = PcurRelPos.BTR_PCUR_AFTER)
    (h4 : c.old_rec = some r)
    (h5 : c.old_n_fields ≠ 0)
    (h6 : latch = LatchMode.BTR_SEARCH_LEAF ∨ latch = LatchMode.BTR_MODIFY_LEAF)
    (h7 : buf_page_optimistic_get e.resident (w.pool c.block_when_stored)
            c.modify_clock = true) :
    btr_pcur_restore_position_func w e latch c =
      some (if c.rel_pos = PcurRelPos.BTR_PCUR_ON then
              ⟨{ c with pos_state := PcurPosState.BTR_PCUR_IS_POSITIONED,
                        latch_mode := latch }, true, false, none⟩
            else
              ⟨{ c with pos_state := PcurPosState.BTR_PCUR_IS_POSITIONED },
               false, false, none⟩) := by
  have hsent : ¬(c.rel_pos = PcurRelPos.BTR_PCUR_AFTER_LAST_IN_TREE ∨
                 c.rel_pos = PcurRelPos.BTR_PCUR_BEFORE_FIRST_IN_TREE) := by
    rcases h3 with h | h | h <;> simp [h]
  have hstate : ¬(c.pos_state ≠ PcurPosState.BTR_PCUR_WAS_POSITIONED ∧
                  c.pos_state ≠ PcurPosState.BTR_PCUR_IS_POSITIONED) := by
    rcases h2 with h | h <;> simp [h]
  rw [btr_pcur_restore_position_func]
  rw [if_neg (by simp [h1]), if_neg hstate, if_neg hsent, h4]
  dsimp only
  rw [if_neg h5, if_pos ⟨h6, h7⟩]
  rcases Decidable.em (c.rel_pos = PcurRelPos.BTR_PCUR_ON) with hon | hon <;>
    simp [hon]

/-- A two-record one-leaf tree whose block clock is 3, used to instantiate
theorems at concrete inputs. -/
def fix_w : World :=
  ⟨fun _ => ⟨⟨[[5], [7]], FIL_NULL, FIL_NULL⟩, 3⟩⟩

/-- A cursor whose position on the second record of fix_w was stored and whose
latches were released (pos_state WAS_POSITIONED). -/
def fix_stored : BtrPcur :=
  { pos_state := PcurPosState.BTR_PCUR_WAS_POSITIONED,
    latch_mode := LatchMode.BTR_NO_LATCHES,
    rel_pos := PcurRelPos.BTR_PCUR_ON,
    old_stored := PcurOldStored.BTR_PCUR_OLD_STORED,
    old_rec := some [7],
    old_n_fields := 1,
    block_when_stored := 0,
    modify_clock := 3,
    search_mode := SrchMode.PAGE_CUR_GE,
    index := ⟨1⟩,
    cur_block_id := 0,
    page_pos := PagePos.user 1 }

/-- A restore environment where the page is resident and the pessimistic
search would land on the second record of block 0. -/
def fix_e : RestoreEnv :=
  ⟨true, 0, PagePos.infimum, 0, PagePos.user 1⟩

/-- C2: when the optimistic buffer-pool reacquisition of block_when_stored
against the stored modify_clock succeeds under a BTR_SEARCH_LEAF or
BTR_MODIFY_LEAF latch mode on a cursor stored with rel_pos in
{ON, BEFORE, AFTER}, restore_position marks the cursor IS_POSITIONED and
returns true iff rel_pos = ON, performing no tree search. -/
theorem claim_C2_optimistic_restore (w : World) (e : RestoreEnv)
    (latch : LatchMode) (c : BtrPcur) (r : Rec)
    (h1 : c.old_stored = PcurOldStored.BTR_PCUR_OLD_STORED)
    (h2 : c.pos_state = PcurPosState.BTR_PCUR_WAS_POSITIONED ∨
          c.pos_state = PcurPosState.BTR_PCUR_IS_POSITIONED)
    (h3 : c.rel_pos = PcurRelPos.BTR_PCUR_ON ∨
          c.rel_pos = PcurRelPos.BTR_PCUR_BEFORE ∨
          c.rel_pos = PcurRelPos.BTR_PCUR_AFTER)
    (h4 : c.old_rec = some r)
    (h5 : c.old_n_fields ≠ 0)
    (h6 : latch = LatchMode.BTR_SEARCH_LEAF ∨ latch = LatchMode.BTR_MODIFY_LEAF)
    (h7 : buf_page_optimistic_get e.resident (w.pool c.block_when_stored)
            c.modify_clock = true) :
    ∃ res, btr_pcur_restore_position_func w e latch c = some res ∧
      res.cursor.pos_state = PcurPosState.BTR_PCUR_IS_POSITIONED ∧
      (res.ret = true ↔ c.rel_pos = PcurRelPos.BTR_PCUR_ON) ∧
      res.did_search = false := by
  rw [restore_optimistic_eq w e latch c r h1 h2 h3 h4 h5 h6 h7]
  by_cases hon : c.rel_pos = PcurRelPos.BTR_PCUR_ON <;> simp [hon]

/-- Witness for C2 at a concrete stored cursor: optimistic success with
rel_pos = ON yields true with no search. -/
theorem claim_C2_witness :
    fix_stored.old_stored = PcurOldStored.BTR_PCUR_OLD_STORED ∧
    fix_stored.old_n_fields ≠ 0 ∧
    buf_page_optimistic_get fix_e.resident (fix_w.pool fix_stored.block_when_stored)
      fix_stored.modify_clock = true ∧
    ∃ res, btr_pcur_restore_position_func fix_w fix_e LatchMode.BTR_SEARCH_LEAF
        fix_stored = some res ∧
      res.cursor.pos_state = PcurPosState.BTR_PCUR_IS_POSITIONED ∧
      (res.ret = true ↔ fix_stored.rel_pos = PcurRelPos.BTR_PCUR_ON) ∧
      res.did_search = false :=
  ⟨by decide, by decide, by decide,
   claim_C2_optimistic_restore fix_w fix_e LatchMode.BTR_SEARCH_LEAF fix_stored [7]
     (by decide) (Or.inl (by decide)) (Or.inl (by decide)) (by decide) (by decide)
     (Or.inl rfl) (by decide)⟩

/-- C10: on the successful optimistic path with rel_pos BEFORE or AFTER,
restore_position changes pos_state to IS_POSITIONED and nothing else: the
cursor's latch_mode keeps its pre-call value (the requested latch mode is only
assigned in the rel_pos = ON branch) and old_rec, old_n_fields, old_stored,
block_when_stored, modify_clock and rel_pos are all unchanged. -/
theorem claim_C10_optimistic_frame (w : World) (e : RestoreEnv)
    (latch : LatchMode) (c : BtrPcur) (r : Rec)
    (h1 : c.old_stored = PcurOldStored.BTR_PCUR_OLD_STORED)
    (h2 : c.pos_state = PcurPosState.BTR_PCUR_WAS_POSITIONED ∨
          c.pos_state = PcurPosState.BTR_PCUR_IS_POSITIONED)
    (h3 : c.rel_pos = PcurRelPos.BTR_PCUR_BEFORE ∨
          c.rel_pos = PcurRelPos.BTR_PCUR_AFTER)
    (h4 : c.old_rec = some r)
    (h5 : c.old_n_fields ≠ 0)
    (h6 : latch = LatchMode.BTR_SEARCH_LEAF ∨ latch = LatchMode.BTR_MODIFY_LEAF)
    (h7 : buf_page_optimistic_get e.resident (w.pool c.block_when_stored)
            c.modify_clock = true) :
    btr_pcur_restore_position_func w e latch c =
      some ⟨{ c with pos_state := PcurPosState.BTR_PCUR_IS_POSITIONED },
            false, false, none⟩ ∧
    ({ c with pos_state := PcurPosState.BTR_PCUR_IS_POSITIONED } : BtrPcur).latch_mode
      = c.latch_mode := by
  have hon : ¬ c.rel_pos = PcurRelPos.BTR_PCUR_ON := by
    rcases h3 with h | h <;> simp [h]
  rw [restore_optimistic_eq w e latch c r h1 h2 (Or.inr h3) h4 h5 h6 h7]
  simp [hon]

/-- Witness for C10 at a concrete stored cursor with rel_pos = BEFORE. -/
theorem claim_C10_witness :
    ({ fix_stored with rel_pos := PcurRelPos.BTR_PCUR_BEFORE } : BtrPcur).old_stored
      = PcurOldStored.BTR_PCUR_OLD_STORED ∧
    btr_pcur_restore_position_func fix_w fix_e LatchMode.BTR_MODIFY_LEAF
        { fix_stored with rel_pos := PcurRelPos.BTR_PCUR_BEFORE } =
      some ⟨{ fix_stored with
               rel_pos := PcurRelPos.BTR_PCUR_BEFORE,
               pos_state := PcurPosState.BTR_PCUR_IS_POSITIONED },
            false, false, none⟩ :=
  ⟨by decide,
   (claim_C10_optimistic_frame fix_w fix_e LatchMode.BTR_MODIFY_LEAF
      { fix_stored with rel_pos := PcurRelPos.BTR_PCUR_BEFORE } [7]
      (by decide) (Or.inl (by decide)) (Or.inl (by decide)) (by decide) (by decide)
      (Or.inr rfl) (by decide)).1⟩

/-- A cursor positioned (latched) on the second user record of fix_w, ready
for store_position. -/
def fix_positioned : BtrPcur :=
  { pos_state := PcurPosState.BTR_PCUR_IS_POSITIONED,
    latch_mode := LatchMode.BTR_SEARCH_LEAF,
    rel_pos := PcurRelPos.BTR_PCUR_ON,
    old_stored := PcurOldStored.BTR_PCUR_OLD_NOT_STORED,
    old_rec := none,
    old_n_fields := 0,
    block_when_stored := 0,
    modify_clock := 0,
    search_mode := SrchMode.PAGE_CUR_GE,
    index := ⟨1⟩,
    cur_block_id := 0,
    page_pos := PagePos.user 1 }

/-- Counterexample to C4 as stated: a persistent cursor positioned on the
supremum of an unmodified resident page.  store_position followed by
restore_position succeeds but returns false, not true. -/
theorem claim_C4_counterexample :
    fix_positioned.pos_state = PcurPosState.BTR_PCUR_IS_POSITIONED ∧
    ((btr_pcur_store_position fix_w
        { fix_positioned with page_pos := PagePos.supremum }).bind
      (btr_pcur_restore_position_func fix_w fix_e LatchMode.BTR_SEARCH_LEAF)).map
        RestoreResult.ret = some false := by
  constructor
  · rfl
  · decide

/-- C3: store_position on a positioned, latched cursor.  On a page with zero
user records (whose sibling pointers are both FIL_NULL) it only marks
old_stored = STORED and sets rel_pos to AFTER_LAST_IN_TREE on the supremum and
BEFORE_FIRST_IN_TREE otherwise, copying no prefix and capturing no modify
clock (every other field keeps its value).  On a non-empty page the anchor is
the last user record with rel_pos = AFTER on the supremum, the first user
record with rel_pos = BEFORE on the infimum, and the record itself with
rel_pos = ON on a user record; the anchor's order prefix and field count are
stored together with the block and its current modify clock, and
old_stored = STORED. -/
lemma store_position_cases (w : World) (c : BtrPcur)
    (hpos : c.pos_state = PcurPosState.BTR_PCUR_IS_POSITIONED)
    (hlatch : c.latch_mode ≠ LatchMode.BTR_NO_LATCHES) :
    ((w.pool c.cur_block_id).page.recs.length = 0 ∧
     (w.pool c.cur_block_id).page.next_page = FIL_NULL ∧
     (w.pool c.cur_block_id).page.prev_page = FIL_NULL →
       btr_pcur_store_position w c =
         some { c with
           old_stored := PcurOldStored.BTR_PCUR_OLD_STORED,
           rel_pos :=
             if c.page_pos = PagePos.supremum then
               PcurRelPos.BTR_PCUR_AFTER_LAST_IN_TREE
             else
               PcurRelPos.BTR_PCUR_BEFORE_FIRST_IN_TREE }) ∧
    (∀ r, c.page_pos = PagePos.supremum →
       (w.pool c.cur_block_id).page.recs.getLast? = some r →
       btr_pcur_store_position w c =
         some { c with
           rel_pos := PcurRelPos.BTR_PCUR_AFTER,
           old_stored := PcurOldStored.BTR_PCUR_OLD_STORED,
           old_rec := some (r.take c.index.n_ord_fields),
           old_n_fields := c.index.n_ord_fields,
           block_when_stored := c.cur_block_id,
           modify_clock := (w.pool c.cur_block_id).modify_clock }) ∧
    (∀ r, c.page_pos = PagePos.infimum →
       (w.pool c.cur_block_id).page.recs.head? = some r →
       btr_pcur_store_position w c =
         some { c with
           rel_pos := PcurRelPos.BTR_PCUR_BEFORE,
           old_stored := PcurOldStored.BTR_PCUR_OLD_STORED,
           old_rec := some (r.take c.index.n_ord_fields),
           old_n_fields := c.index.n_ord_fields,
           block_when_stored := c.cur_block_id,
           modify_clock := (w.pool c.cur_block_id).modify_clock }) ∧
    (∀ i r, c.page_pos = PagePos.user i →
       (w.pool c.cur_block_id).page.recs.get? i = some r →
       btr_pcur_store_position w c =
         some { c with
           rel_pos := PcurRelPos.BTR_PCUR_ON,
           old_stored := PcurOldStored.BTR_PCUR_OLD_STORED,
           old_rec := some (r.take c.index.n_ord_fields),
           old_n_fields := c.index.n_ord_fields,
           block_when_stored := c.cur_block_id,
           modify_clock := (w.pool c.cur_block_id).modify_clock }) := by
  refine ⟨?_, ?_, ?_, ?_⟩
  · rintro ⟨hlen, hnext, hprev⟩
    rw [btr_pcur_store_position, if_neg (by simp [hpos]), if_neg hlatch,
      if_pos (show page_get_n_recs (btr_pcur_get_block w c).page = 0 from hlen),
      if_neg (by simp [btr_pcur_get_block, hnext, hprev])]
  · intro r hpp hr
    have hne : ¬ page_get_n_recs (btr_pcur_get_block w c).page = 0 := by
      intro h0
      rw [page_get_n_recs, btr_pcur_get_block] at h0
      rw [List.length_eq_zero.mp h0] at hr
      simp at hr
    rw [btr_pcur_store_position, if_neg (by simp [hpos]), if_neg hlatch,
      if_neg hne]
    dsimp only [btr_pcur_get_block]
    rw [hpp]
    dsimp only
    rw [hr]
    dsimp only [dict_index_copy_rec_order_pfx, buf_block_get_modify_clock]
  · intro r hpp hr
    have hne : ¬ page_get_n_recs (btr_pcur_get_block w c).page = 0 := by
      intro h0
      rw [page_get_n_recs, btr_pcur_get_block] at h0
      rw [List.length_eq_zero.mp h0] at hr
      simp at hr
    rw [btr_pcur_store_position, if_neg (by simp [hpos]), if_neg hlatch,
      if_neg hne]
    dsimp only [btr_pcur_get_block]
    rw [hpp]
    dsimp only
    rw [hr]
    dsimp only [dict_index_copy_rec_order_pfx, buf_block_get_modify_clock]
  · intro i r hpp hr
    have hne : ¬ page_get_n_recs (btr_pcur_get_block w c).page = 0 := by
      intro h0
      rw [page_get_n_recs, btr_pcur_get_block] at h0
      rw [List.length_eq_zero.mp h0] at hr
      simp at hr
    rw [btr_pcur_store_position, if_neg (by simp [hpos]), if_neg hlatch,
      if_neg hne]
    dsimp only [btr_pcur_get_block]
    rw [hpp]
    dsimp only
    rw [hr]
    dsimp only [dict_index_copy_rec_order_pfx, buf_block_get_modify_clock]

/-- C3: store_position on a positioned, latched cursor.  On a page with zero
user records (whose sibling pointers are both FIL_NULL) it only marks
old_stored = STORED and sets rel_pos to AFTER_LAST_IN_TREE on the supremum and
BEFORE_FIRST_IN_TREE otherwise, copying no prefix and capturing no modify
clock (every other field keeps its value).  On a non-empty page the anchor is
the last user record with rel_pos = AFTER on the supremum, the first user
record with rel_pos = BEFORE on the infimum, and the record itself with
rel_pos = ON on a user record; the anchor's order prefix and field count are
stored together with the block and its current modify clock, and
old_stored = STORED. -/
theorem claim_C3_store_position (w : World) (c : BtrPcur)
    (hpos : c.pos_state = PcurPosState.BTR_PCUR_IS_POSITIONED)
    (hlatch : c.latch_mode ≠ LatchMode.BTR_NO_LATCHES) :
    ((w.pool c.cur_block_id).page.recs.length = 0 ∧
     (w.pool c.cur_block_id).page.next_page = FIL_NULL ∧
     (w.pool c.cur_block_id).page.prev_page = FIL_NULL →
       btr_pcur_store_position w c =
         some { c with
           old_stored := PcurOldStored.BTR_PCUR_OLD_STORED,
           rel_pos :=
             if c.page_pos = PagePos.supremum then
               PcurRelPos.BTR_PCUR_AFTER_LAST_IN_TREE
             else
               PcurRelPos.BTR_PCUR_BEFORE_FIRST_IN_TREE }) ∧
    (∀ r, c.page_pos = PagePos.supremum →
       (w.pool c.cur_block_id).page.recs.getLast? = some r →
       btr_pcur_store_position w c =
         some { c with
           rel_pos := PcurRelPos.BTR_PCUR_AFTER,
           old_stored := PcurOldStored.BTR_PCUR_OLD_STORED,
           old_rec := some (r.take c.index.n_ord_fields),
           old_n_fields := c.index.n_ord_fields,
           block_when_stored := c.cur_block_id,
           modify_clock := (w.pool c.cur_block_id).modify_clock }) ∧
    (∀ r, c.page_pos = PagePos.infimum →
       (w.pool c.cur_block_id).page.recs.head? = some r →
       btr_pcur_store_position w c =
         some { c with
           rel_pos := PcurRelPos.BTR_PCUR_BEFORE,
           old_stored := PcurOldStored.BTR_PCUR_OLD_STORED,
           old_rec := some (r.take c.index.n_ord_fields),
           old_n_fields := c.index.n_ord_fields,
           block_when_stored := c.cur_block_id,
           modify_clock := (w.pool c.cur_block_id).modify_clock }) ∧
    (∀ i r, c.page_pos = PagePos.user i →
       (w.pool c.cur_block_id).page.recs.get? i = some r →
       btr_pcur_store_position w c =
         some { c with
           rel_pos := PcurRelPos.BTR_PCUR_ON,
           old_stored := PcurOldStored.BTR_PCUR_OLD_STORED,
           old_rec := some (r.take c.index.n_ord_fields),
           old_n_fields := c.index.n_ord_fields,
           block_when_stored := c.cur_block_id,
           modify_clock := (w.pool c.cur_block_id).modify_clock }) :=
  store_position_cases w c hpos hlatch

/-- Witness for C3 at concrete cursors: the supremum anchor on fix_w and the
empty single-page tree. -/
theorem claim_C3_witness :
    fix_positioned.pos_state = PcurPosState.BTR_PCUR_IS_POSITIONED ∧
    btr_pcur_store_position fix_w
        { fix_positioned with page_pos := PagePos.supremum } =
      some { fix_positioned with
        page_pos := PagePos.supremum,
        rel_pos := PcurRelPos.BTR_PCUR_AFTER,
        old_stored := PcurOldStored.BTR_PCUR_OLD_STORED,
        old_rec := some [7],
        old_n_fields := 1,
        block_when_stored := 0,
        modify_clock := 3 } :=
  ⟨by decide,
   (claim_C3_store_position fix_w
      { fix_positioned with page_pos := PagePos.supremum }
      (by decide) (by decide)).2.1 [7] (by decide) (by decide)⟩

/-- The cursor as it stands right after the pessimistic re-open of
restore_position: positioned at the tree-search landing under the requested
latch mode, with the caller's search_mode already restored. -/
def pess_landing (e : RestoreEnv) (latch : LatchMode) (c : BtrPcur) : BtrPcur :=
  { c with
    pos_state := PcurPosState.BTR_PCUR_IS_POSITIONED,
    latch_mode := latch,
    cur_block_id := e.land_block_id,
    page_pos := e.land_pos }

/-- When the pessimistic branch is taken (stored cursor, non-sentinel rel_pos,
optimistic reacquisition unavailable or failed), restore_position equals the
re-open-and-recheck tail of the function. -/
lemma restore_pessimistic_eq (w : World) (e : RestoreEnv) (latch : LatchMode)
    (c : BtrPcur) (r : Rec)
    (h1 : c.old_stored = PcurOldStored.BTR_PCUR_OLD_STORED)
    (h2 : c.pos_state = PcurPosState.BTR_PCUR_WAS_POSITIONED ∨
          c.pos_state = PcurPosState.BTR_PCUR_IS_POSITIONED)
    (h3 : c.rel_pos = PcurRelPos.BTR_PCUR_ON ∨
          c.rel_pos = PcurRelPos.BTR_PCUR_BEFORE ∨
          c.rel_pos = PcurRelPos.BTR_PCUR_AFTER)
    (h4 : c.old_rec = some r)
    (h5 : c.old_n_fields ≠ 0)
    (h6 : ¬((latch = LatchMode.BTR_SEARCH_LEAF ∨
             latch = LatchMode.BTR_MODIFY_LEAF) ∧
            buf_page_optimistic_get e.resident (w.pool c.block_when_stored)
              c.modify_clock = true)) :
    btr_pcur_restore_position_func w e latch c =
      (if c.rel_pos = PcurRelPos.BTR_PCUR_ON ∧
          btr_pcur_is_on_user_rec w (pess_landing e latch c) = true ∧
          cmp_dtuple_rec (dict_index_build_data_tuple r c.old_n_fields)
            ((btr_pcur_get_rec w (pess_landing e latch c)).getD []) = 0 then
         some ⟨{ pess_landing e latch c with
                  block_when_stored := e.land_block_id,
                  modify_clock :=
                    buf_block_get_modify_clock (w.pool e.land_block_id),
                  old_stored := PcurOldStored.BTR_PCUR_OLD_STORED },
               true, true,
               some (match c.rel_pos with
                     | PcurRelPos.BTR_PCUR_ON => SrchMode.PAGE_CUR_LE
                     | PcurRelPos.BTR_PCUR_AFTER => SrchMode.PAGE_CUR_G
                     | _ => SrchMode.PAGE_CUR_L)⟩
       else
         match btr_pcur_store_position w (pess_landing e latch c) with
         | none => none
         | some c4 =>
           some ⟨c4, false, true,
                 some (match c.rel_pos with
                       | PcurRelPos.BTR_PCUR_ON => SrchMode.PAGE_CUR_LE
                       | PcurRelPos.BTR_PCUR_AFTER => SrchMode.PAGE_CUR_G
                       | _ => SrchMode.PAGE_CUR_L)⟩) := by
  have hsent : ¬(c.rel_pos = PcurRelPos.BTR_PCUR_AFTER_LAST_IN_TREE ∨
                 c.rel_pos = PcurRelPos.BTR_PCUR_BEFORE_FIRST_IN_TREE) := by
    rcases h3 with h | h | h <;> simp [h]
  have hstate : ¬(c.pos_state ≠ PcurPosState.BTR_PCUR_WAS_POSITIONED ∧
                  c.pos_state ≠ PcurPosState.BTR_PCUR_IS_POSITIONED) := by
    rcases h2 with h | h <;> simp [h]
  rw [btr_pcur_restore_position_func]
  rw [if_neg (by simp [h1]), if_neg hstate, if_neg hsent, h4]
  dsimp only
  rw [if_neg h5, if_neg h6]
  rfl

/-- store_position never changes the cursor's search_mode. -/
lemma store_position_search_mode (w : World) (c c' : BtrPcur)
    (h : btr_pcur_store_position w c = some c') :
    c'.search_mode = c.search_mode := by
  obtain ⟨ps, lm, rp, os, orc, onf, bws, mc, sm, idx, cbi, pp⟩ := c
  cases pp <;>
    (rw [btr_pcur_store_position] at h
     dsimp only at h) <;>
    (repeat' split at h) <;>
    first
      | (simp only [Option.some.injEq] at h
         subst h
         rfl)
      | simp at h

/-- store_position succeeds on a positioned latched cursor whose page is
well formed: an empty page has no live siblings and a user-record position is
in range. -/
lemma store_position_isSome (w : World) (c : BtrPcur)
    (hpos : c.pos_state = PcurPosState.BTR_PCUR_IS_POSITIONED)
    (hlatch : c.latch_mode ≠ LatchMode.BTR_NO_LATCHES)
    (hempty : (w.pool c.cur_block_id).page.recs.length = 0 →
      (w.pool c.cur_block_id).page.next_page = FIL_NULL ∧
      (w.pool c.cur_block_id).page.prev_page = FIL_NULL)
    (huser : ∀ i, c.page_pos = PagePos.user i →
      i < (w.pool c.cur_block_id).page.recs.length) :
    ∃ c', btr_pcur_store_position w c = some c' := by
  by_cases hlen : (w.pool c.cur_block_id).page.recs.length = 0
  · exact ⟨_, (store_position_cases w c hpos hlatch).1
      ⟨hlen, (hempty hlen).1, (hempty hlen).2⟩⟩
  · have hnil : (w.pool c.cur_block_id).page.recs ≠ [] := by
      intro h
      exact hlen (by rw [h]; rfl)
    match hpp : c.page_pos with
    | PagePos.supremum =>
      obtain ⟨r, hr⟩ := Option.isSome_iff_exists.mp
        (List.getLast?_isSome.mpr hnil)
      exact ⟨_, (store_position_cases w c hpos hlatch).2.1 r hpp hr⟩
    | PagePos.infimum =>
      obtain ⟨r, hr⟩ := Option.isSome_iff_exists.mp
        (List.head?_isSome.mpr hnil)
      exact ⟨_, (store_position_cases w c hpos hlatch).2.2.1 r hpp hr⟩
    | PagePos.user i =>
      exact ⟨_, (store_position_cases w c hpos hlatch).2.2.2 i _ hpp
        (List.get?_eq_some.mpr ⟨huser i hpp, rfl⟩)⟩

/-- C1: on the pessimistic branch (optimistic reacquisition failed or the
latch mode is not SEARCH_LEAF / MODIFY_LEAF, rel_pos not a tree sentinel),
restore_position re-opens the cursor with search mode PAGE_CUR_LE for
rel_pos = ON, PAGE_CUR_G for AFTER and PAGE_CUR_L for BEFORE; the cursor's
search_mode is the same after the call as before it; the call returns true iff
rel_pos = ON, the landing is a user record and cmp_dtuple_rec of the rebuilt
tuple against it is 0, in which case block_when_stored and modify_clock are
moved to the new block and old_stored stays STORED; otherwise store_position
is re-run on the landing and false is returned. -/
theorem claim_C1_restore_pessimistic (w : World) (e : RestoreEnv)
    (latch : LatchMode) (c : BtrPcur) (r : Rec)
    (h1 : c.old_stored = PcurOldStored.BTR_PCUR_OLD_STORED)
    (h2 : c.pos_state = PcurPosState.BTR_PCUR_WAS_POSITIONED ∨
          c.pos_state = PcurPosState.BTR_PCUR_IS_POSITIONED)
    (h3 : c.rel_pos = PcurRelPos.BTR_PCUR_ON ∨
          c.rel_pos = PcurRelPos.BTR_PCUR_BEFORE ∨
          c.rel_pos = PcurRelPos.BTR_PCUR_AFTER)
    (h4 : c.old_rec = some r)
    (h5 : c.old_n_fields ≠ 0)
    (h6 : ¬((latch = LatchMode.BTR_SEARCH_LEAF ∨
             latch = LatchMode.BTR_MODIFY_LEAF) ∧
            buf_page_optimistic_get e.resident (w.pool c.block_when_stored)
              c.modify_clock = true))
    (h7 : latch ≠ LatchMode.BTR_NO_LATCHES)
    (h8 : (w.pool e.land_block_id).page.recs.length = 0 →
      (w.pool e.land_block_id).page.next_page = FIL_NULL ∧
      (w.pool e.land_block_id).page.prev_page = FIL_NULL)
    (h9 : ∀ i, e.land_pos = PagePos.user i →
      i < (w.pool e.land_block_id).page.recs.length) :
    ∃ res, btr_pcur_restore_position_func w e latch c = some res ∧
      res.did_search = true ∧
      res.pess_mode =
        some (match c.rel_pos with
              | PcurRelPos.BTR_PCUR_ON => SrchMode.PAGE_CUR_LE
              | PcurRelPos.BTR_PCUR_AFTER => SrchMode.PAGE_CUR_G
              | _ => SrchMode.PAGE_CUR_L) ∧
      res.cursor.search_mode = c.search_mode ∧
      (res.ret = true ↔
        (c.rel_pos = PcurRelPos.BTR_PCUR_ON ∧
         btr_pcur_is_on_user_rec w (pess_landing e latch c) = true ∧
         cmp_dtuple_rec (dict_index_build_data_tuple r c.old_n_fields)
           ((btr_pcur_get_rec w (pess_landing e latch c)).getD []) = 0)) ∧
      (res.ret = true →
        res.cursor.block_when_stored = e.land_block_id ∧
        res.cursor.modify_clock = (w.pool e.land_block_id).modify_clock ∧
        res.cursor.old_stored = PcurOldStored.BTR_PCUR_OLD_STORED) ∧
      (res.ret = false →
        btr_pcur_store_position w (pess_landing e latch c) = some res.cursor) := by
  rw [restore_pessimistic_eq w e latch c r h1 h2 h3 h4 h5 h6]
  by_cases hhit : c.rel_pos = PcurRelPos.BTR_PCUR_ON ∧
      btr_pcur_is_on_user_rec w (pess_landing e latch c) = true ∧
      cmp_dtuple_rec (dict_index_build_data_tuple r c.old_n_fields)
        ((btr_pcur_get_rec w (pess_landing e latch c)).getD []) = 0
  · rw [if_pos hhit]
    refine ⟨_, rfl, rfl, rfl, rfl, ?_, ?_, ?_⟩
    · exact ⟨fun _ => hhit, fun _ => rfl⟩
    · exact fun _ => ⟨rfl, rfl, rfl⟩
    · intro hf
      simp at hf
  · rw [if_neg hhit]
    obtain ⟨c4, hc4⟩ := store_position_isSome w (pess_landing e latch c)
      rfl h7 h8 h9
    rw [hc4]
    refine ⟨_, rfl, rfl, rfl, ?_, ?_, ?_, ?_⟩
    · exact store_position_search_mode w (pess_landing e latch c) c4 hc4
    · constructor
      · intro hf
        simp at hf
      · intro hh
        exact absurd hh hhit
    · intro hf
      simp at hf
    · intro _
      rfl

/-- Witness for C1 at a concrete stored cursor: a non-leaf latch mode forces
the pessimistic branch, the LE search lands back on the stored record, and
restore returns true with search_mode preserved. -/
theorem claim_C1_witness :
    fix_stored.old_stored = PcurOldStored.BTR_PCUR_OLD_STORED ∧
    fix_stored.old_n_fields ≠ 0 ∧
    ∃ res, btr_pcur_restore_position_func fix_w fix_e LatchMode.BTR_MODIFY_TREE
        fix_stored = some res ∧
      res.did_search = true ∧
      res.pess_mode =
        some (match fix_stored.rel_pos with
              | PcurRelPos.BTR_PCUR_ON => SrchMode.PAGE_CUR_LE
              | PcurRelPos.BTR_PCUR_AFTER => SrchMode.PAGE_CUR_G
              | _ => SrchMode.PAGE_CUR_L) ∧
      res.cursor.search_mode = fix_stored.search_mode ∧
      (res.ret = true ↔
        (fix_stored.rel_pos = PcurRelPos.BTR_PCUR_ON ∧
         btr_pcur_is_on_user_rec fix_w
           (pess_landing fix_e LatchMode.BTR_MODIFY_TREE fix_stored) = true ∧
         cmp_dtuple_rec (dict_index_build_data_tuple [7] fix_stored.old_n_fields)
           ((btr_pcur_get_rec fix_w
              (pess_landing fix_e LatchMode.BTR_MODIFY_TREE fix_stored)).getD [])
           = 0)) ∧
      (res.ret = true →
        res.cursor.block_when_stored = fix_e.land_block_id ∧
        res.cursor.modify_clock = (fix_w.pool fix_e.land_block_id).modify_clock ∧
        res.cursor.old_stored = PcurOldStored.BTR_PCUR_OLD_STORED) ∧
      (res.ret = false →
        btr_pcur_store_position fix_w
          (pess_landing fix_e LatchMode.BTR_MODIFY_TREE fix_stored) =
            some res.cursor) :=
  ⟨by decide, by decide,
   claim_C1_restore_pessimistic fix_w fix_e LatchMode.BTR_MODIFY_TREE fix_stored
     [7] (by decide) (Or.inl (by decide)) (Or.inl (by decide)) (by decide)
     (by decide) (by decide) (by decide) (by decide)
     (by intro i hi; cases hi; decide)⟩

/-- Comparing the order-field prefix of a record against the record itself
yields 0. -/
lemma cmp_fields_take_self (l : List Nat) (n : Nat) :
    cmp_fields (l.take n) l = 0 := by
  induction l generalizing n with
  | nil => cases n <;> rfl
  | cons a t ih =>
    cases n with
    | zero => rfl
    | succ m =>
      rw [List.take_succ_cons]
      simp [cmp_fields, ih]

/-- C4 amended: for a persistent cursor positioned on a user record of its
page (not on a sentinel) on an unmodified tree — the buffer pool is the same
at both calls and the pessimistic re-open, when taken, lands back on the
stored record, as the PAGE_CUR_LE search on the stored order prefix does on an
unmodified tree — store_position immediately followed by restore_position
returns true and leaves the cursor addressing the same record, under every
latch mode, whether the optimistic reacquisition is available or not. -/
theorem claim_C4_store_restore_identity (w : World) (e : RestoreEnv)
    (latch2 : LatchMode) (c : BtrPcur) (i : Nat) (r : Rec)
    (hpos : c.pos_state = PcurPosState.BTR_PCUR_IS_POSITIONED)
    (hlatch : c.latch_mode ≠ LatchMode.BTR_NO_LATCHES)
    (hpp : c.page_pos = PagePos.user i)
    (hrec : (w.pool c.cur_block_id).page.recs.get? i = some r)
    (hnord : c.index.n_ord_fields ≠ 0)
    (hland_block : e.land_block_id = c.cur_block_id)
    (hland_pos : e.land_pos = c.page_pos) :
    ∃ c1 res, btr_pcur_store_position w c = some c1 ∧
      btr_pcur_restore_position_func w e latch2 c1 = some res ∧
      res.ret = true ∧
      res.cursor.cur_block_id = c.cur_block_id ∧
      res.cursor.page_pos = c.page_pos := by
  have hne : ¬ page_get_n_recs (btr_pcur_get_block w c).page = 0 := by
    intro h0
    have hnil : (w.pool c.cur_block_id).page.recs = [] := by
      simpa [page_get_n_recs, btr_pcur_get_block] using
        List.length_eq_zero.mp h0
    rw [hnil] at hrec
    simp at hrec
  have hstore : btr_pcur_store_position w c =
      some { c with
        rel_pos := PcurRelPos.BTR_PCUR_ON,
        old_stored := PcurOldStored.BTR_PCUR_OLD_STORED,
        old_rec := some (r.take c.index.n_ord_fields),
        old_n_fields := c.index.n_ord_fields,
        block_when_stored := c.cur_block_id,
        modify_clock := (w.pool c.cur_block_id).modify_clock } := by
    rw [btr_pcur_store_position, if_neg (by simp [hpos]), if_neg hlatch,
      if_neg hne]
    dsimp only [btr_pcur_get_block]
    rw [hpp]
    dsimp only
    rw [hrec]
    dsimp only [dict_index_copy_rec_order_pfx, buf_block_get_modify_clock]
  by_cases hopt : (latch2 = LatchMode.BTR_SEARCH_LEAF ∨
      latch2 = LatchMode.BTR_MODIFY_LEAF) ∧
      buf_page_optimistic_get e.resident (w.pool c.cur_block_id)
        (w.pool c.cur_block_id).modify_clock = true
  · have hrest := restore_optimistic_eq w e latch2
      { c with
        rel_pos := PcurRelPos.BTR_PCUR_ON,
        old_stored := PcurOldStored.BTR_PCUR_OLD_STORED,
        old_rec := some (r.take c.index.n_ord_fields),
        old_n_fields := c.index.n_ord_fields,
        block_when_stored := c.cur_block_id,
        modify_clock := (w.pool c.cur_block_id).modify_clock }
      (r.take c.index.n_ord_fields)
      rfl (Or.inr hpos) (Or.inl rfl) rfl hnord hopt.1 hopt.2
    simp only [if_pos rfl] at hrest
    exact ⟨_, _, hstore, hrest, rfl, rfl, rfl⟩
  · have hrest := restore_pessimistic_eq w e latch2
      { c with
        rel_pos := PcurRelPos.BTR_PCUR_ON,
        old_stored := PcurOldStored.BTR_PCUR_OLD_STORED,
        old_rec := some (r.take c.index.n_ord_fields),
        old_n_fields := c.index.n_ord_fields,
        block_when_stored := c.cur_block_id,
        modify_clock := (w.pool c.cur_block_id).modify_clock }
      (r.take c.index.n_ord_fields)
      rfl (Or.inr hpos) (Or.inl rfl) rfl hnord hopt
    have hgr : btr_pcur_get_rec w
        (pess_landing e latch2
          { c with
            rel_pos := PcurRelPos.BTR_PCUR_ON,
            old_stored := PcurOldStored.BTR_PCUR_OLD_STORED,
            old_rec := some (r.take c.index.n_ord_fields),
            old_n_fields := c.index.n_ord_fields,
            block_when_stored := c.cur_block_id,
            modify_clock := (w.pool c.cur_block_id).modify_clock }) = some r := by
      rw [btr_pcur_get_rec]
      dsimp only [pess_landing, btr_pcur_get_block]
      rw [hland_pos, hpp]
      dsimp only
      rw [hland_block]
      exact hrec
    have hhit : ({ c with
        rel_pos := PcurRelPos.BTR_PCUR_ON,
        old_stored := PcurOldStored.BTR_PCUR_OLD_STORED,
        old_rec := some (r.take c.index.n_ord_fields),
        old_n_fields := c.index.n_ord_fields,
        block_when_stored := c.cur_block_id,
        modify_clock := (w.pool c.cur_block_id).modify_clock } : BtrPcur).rel_pos
          = PcurRelPos.BTR_PCUR_ON ∧
        btr_pcur_is_on_user_rec w
          (pess_landing e latch2
            { c with
              rel_pos := PcurRelPos.BTR_PCUR_ON,
              old_stored := PcurOldStored.BTR_PCUR_OLD_STORED,
              old_rec := some (r.take c.index.n_ord_fields),
              old_n_fields := c.index.n_ord_fields,
              block_when_stored := c.cur_block_id,
              modify_clock := (w.pool c.cur_block_id).modify_clock }) = true ∧
        cmp_dtuple_rec
          (dict_index_build_data_tuple (r.take c.index.n_ord_fields)
            c.index.n_ord_fields)
          ((btr_pcur_get_rec w
            (pess_landing e latch2
              { c with
                rel_pos := PcurRelPos.BTR_PCUR_ON,
                old_stored := PcurOldStored.BTR_PCUR_OLD_STORED,
                old_rec := some (r.take c.index.n_ord_fields),
                old_n_fields := c.index.n_ord_fields,
                block_when_stored := c.cur_block_id,
                modify_clock :=
                  (w.pool c.cur_block_id).modify_clock })).getD []) = 0 := by
      refine ⟨rfl, ?_, ?_⟩
      · rw [btr_pcur_is_on_user_rec, hgr]
        rfl
      · rw [hgr]
        show cmp_dtuple_rec
          ((r.take c.index.n_ord_fields).take c.index.n_ord_fields) r = 0
        rw [List.take_take, Nat.min_self, cmp_dtuple_rec]
        exact cmp_fields_take_self r c.index.n_ord_fields
    have hres2 : btr_pcur_restore_position_func w e latch2
        { c with
          rel_pos := PcurRelPos.BTR_PCUR_ON,
          old_stored := PcurOldStored.BTR_PCUR_OLD_STORED,
          old_rec := some (r.take c.index.n_ord_fields),
          old_n_fields := c.index.n_ord_fields,
          block_when_stored := c.cur_block_id,
          modify_clock := (w.pool c.cur_block_id).modify_clock } =
        some ⟨{ pess_landing e latch2
                  { c with
                    rel_pos := PcurRelPos.BTR_PCUR_ON,
                    old_stored := PcurOldStored.BTR_PCUR_OLD_STORED,
                    old_rec := some (r.take c.index.n_ord_fields),
                    old_n_fields := c.index.n_ord_fields,
                    block_when_stored := c.cur_block_id,
                    modify_clock := (w.pool c.cur_block_id).modify_clock } with
                block_when_stored := e.land_block_id,
                modify_clock := buf_block_get_modify_clock (w.pool e.land_block_id),
                old_stored := PcurOldStored.BTR_PCUR_OLD_STORED },
              true, true, some SrchMode.PAGE_CUR_LE⟩ := by
      rw [hrest]
      exact if_pos hhit
    exact ⟨_, _, hstore, hres2, rfl, hland_block, hland_pos⟩

/-- Witness for the amended C4 at the concrete positioned cursor on fix_w,
once under a leaf latch mode (optimistic path) and once under BTR_MODIFY_TREE
(pessimistic path): the round trip returns true and keeps the position in
both cases. -/
theorem claim_C4_witness :
    fix_positioned.pos_state = PcurPosState.BTR_PCUR_IS_POSITIONED ∧
    (fix_w.pool fix_positioned.cur_block_id).page.recs.get? 1 = some [7] ∧
    fix_e.land_block_id = fix_positioned.cur_block_id ∧
    fix_e.land_pos = fix_positioned.page_pos ∧
    (∃ c1 res, btr_pcur_store_position fix_w fix_positioned = some c1 ∧
      btr_pcur_restore_position_func fix_w fix_e LatchMode.BTR_SEARCH_LEAF c1 =
        some res ∧
      res.ret = true ∧
      res.cursor.cur_block_id = fix_positioned.cur_block_id ∧
      res.cursor.page_pos = fix_positioned.page_pos) ∧
    (∃ c1 res, btr_pcur_store_position fix_w fix_positioned = some c1 ∧
      btr_pcur_restore_position_func fix_w fix_e LatchMode.BTR_MODIFY_TREE c1 =
        some res ∧
      res.ret = true ∧
      res.cursor.cur_block_id = fix_positioned.cur_block_id ∧
      res.cursor.page_pos = fix_positioned.page_pos) :=
  ⟨by decide, by decide, by decide, by decide,
   claim_C4_store_restore_identity fix_w fix_e LatchMode.BTR_SEARCH_LEAF
     fix_positioned 1 [7] (by decide) (by decide) (by decide) (by decide)
     (by decide) (by decide) (by decide),
   claim_C4_store_restore_identity fix_w fix_e LatchMode.BTR_MODIFY_TREE
     fix_positioned 1 [7] (by decide) (by decide) (by decide) (by decide)
     (by decide) (by decide) (by decide)⟩

/-- restore_position on a cursor without a stored position hits the caller
error path (ut_error), for every buffer pool, environment and latch mode. -/
lemma restore_not_stored (w : World) (e : RestoreEnv) (latch : LatchMode)
    (c : BtrPcur)
    (h : c.old_stored = PcurOldStored.BTR_PCUR_OLD_NOT_STORED) :
    btr_pcur_restore_position_func w e latch c = none := by
  rw [btr_pcur_restore_position_func, if_pos (by simp [h])]

/-- C9: both page-crossing moves discard the stored position: any successful
btr_pcur_move_to_next_page or btr_pcur_move_backward_from_page leaves
old_stored = NOT_STORED on the resulting cursor, so a restore_position without
a fresh store_position fails its precondition (modelled as none) under every
buffer pool, environment and latch mode. -/
theorem claim_C9_moves_discard_stored_position (w : World) (e : RestoreEnv)
    (left_block_id : Nat) (c : BtrPcur) :
    (∀ c', btr_pcur_move_to_next_page w c = some c' →
       c'.old_stored = PcurOldStored.BTR_PCUR_OLD_NOT_STORED ∧
       ∀ w2 e2 lm2, btr_pcur_restore_position_func w2 e2 lm2 c' = none) ∧
    (∀ c', btr_pcur_move_backward_from_page w e left_block_id c = some c' →
       c'.old_stored = PcurOldStored.BTR_PCUR_OLD_NOT_STORED ∧
       ∀ w2 e2 lm2, btr_pcur_restore_position_func w2 e2 lm2 c' = none) := by
  constructor
  · intro c' h
    rw [btr_pcur_move_to_next_page] at h
    split at h
    · simp at h
    · simp only [Option.some.injEq] at h
      subst h
      exact ⟨rfl, fun w2 e2 lm2 => restore_not_stored w2 e2 lm2 _ rfl⟩
  · intro c' h
    rw [btr_pcur_move_backward_from_page] at h
    split at h
    · simp at h
    · cases hlm : c.latch_mode <;> rw [hlm] at h <;>
        simp only [reduceCtorEq, reduceIte] at h <;>
        (repeat' split at h) <;>
        first
          | (simp only [Option.some.injEq] at h
             subst h
             exact ⟨rfl, fun w2 e2 lm2 => restore_not_stored w2 e2 lm2 _ rfl⟩)
          | simp at h

/-- A two-leaf tree: block 0 holds records [5] and [7] and links right to
block 1, which holds record [9] and links back left. -/
def fix_w2 : World :=
  ⟨fun i =>
    if i = 0 then ⟨⟨[[5], [7]], 1, FIL_NULL⟩, 3⟩
    else ⟨⟨[[9]], FIL_NULL, 0⟩, 4⟩⟩

/-- Cursor after the last record (supremum) of block 0 of fix_w2. -/
def fix_sup : BtrPcur :=
  { fix_positioned with page_pos := PagePos.supremum }

/-- Cursor before the first record (infimum) of block 1 of fix_w2. -/
def fix_inf1 : BtrPcur :=
  { fix_positioned with cur_block_id := 1, page_pos := PagePos.infimum }

/-- Result of moving fix_sup to the next page. -/
def fix_cnext : BtrPcur :=
  { fix_positioned with
    old_stored := PcurOldStored.BTR_PCUR_OLD_NOT_STORED,
    cur_block_id := 1,
    page_pos := PagePos.infimum }

/-- Result of moving fix_inf1 backward from its page. -/
def fix_cback : BtrPcur :=
  { pos_state := PcurPosState.BTR_PCUR_IS_POSITIONED,
    latch_mode := LatchMode.BTR_SEARCH_LEAF,
    rel_pos := PcurRelPos.BTR_PCUR_ON,
    old_stored := PcurOldStored.BTR_PCUR_OLD_NOT_STORED,
    old_rec := some [7],
    old_n_fields := 1,
    block_when_stored := 0,
    modify_clock := 3,
    search_mode := SrchMode.PAGE_CUR_GE,
    index := ⟨1⟩,
    cur_block_id := 0,
    page_pos := PagePos.user 1 }

/-- Witness for C9 on the two-leaf tree: both moves succeed, both discard the
stored position, and restore_position refuses both resulting cursors. -/
theorem claim_C9_witness :
    btr_pcur_move_to_next_page fix_w2 fix_sup = some fix_cnext ∧
    btr_pcur_move_backward_from_page fix_w2 fix_e 0 fix_inf1 = some fix_cback ∧
    fix_cnext.old_stored = PcurOldStored.BTR_PCUR_OLD_NOT_STORED ∧
    fix_cback.old_stored = PcurOldStored.BTR_PCUR_OLD_NOT_STORED ∧
    btr_pcur_restore_position_func fix_w2 fix_e LatchMode.BTR_SEARCH_LEAF
      fix_cnext = none ∧
    btr_pcur_restore_position_func fix_w2 fix_e LatchMode.BTR_SEARCH_LEAF
      fix_cback = none :=
  ⟨by decide, by decide,
   ((claim_C9_moves_discard_stored_position fix_w2 fix_e 0 fix_sup).1
      fix_cnext (by decide)).1,
   ((claim_C9_moves_discard_stored_position fix_w2 fix_e 0 fix_inf1).2
      fix_cback (by decide)).1,
   ((claim_C9_moves_discard_stored_position fix_w2 fix_e 0 fix_sup).1
      fix_cnext (by decide)).2 fix_w2 fix_e LatchMode.BTR_SEARCH_LEAF,
   ((claim_C9_moves_discard_stored_position fix_w2 fix_e 0 fix_inf1).2
      fix_cback (by decide)).2 fix_w2 fix_e LatchMode.BTR_SEARCH_LEAF⟩

set_option maxRecDepth 40000 in
/-- C5: get_new_trx_id returns the pre-call max_trx_id and increments it by
one (so two successive calls return a then a+1); the id ceiling is written to
the header exactly on calls whose pre-increment max_trx_id is divisible by
TRX_SYS_TRX_ID_WRITE_MARGIN = 256; starting from max_trx_id = 256, 257 calls
return the ids 256..512 and write the header exactly twice, with the values
512 and 768. -/
theorem claim_C5_trx_id_allocation :
    (∀ s : TrxSys, (get_new_trx_id s).1 = s.m_max_trx_id) ∧
    (∀ s : TrxSys, (get_new_trx_id s).2.m_max_trx_id = s.m_max_trx_id + 1) ∧
    (∀ s : TrxSys, (get_new_trx_id s).2.header_writes =
       s.header_writes ++
         (if s.m_max_trx_id % TRX_SYS_TRX_ID_WRITE_MARGIN = 0 then
            [s.m_max_trx_id + TRX_SYS_TRX_ID_WRITE_MARGIN]
          else [])) ∧
    (∀ s : TrxSys,
       (get_new_trx_id (get_new_trx_id s).2).1 = (get_new_trx_id s).1 + 1) ∧
    (get_new_trx_id_calls 257 ⟨256, []⟩).1 =
      (List.range 257).map (fun i => 256 + i) ∧
    (get_new_trx_id_calls 257 ⟨256, []⟩).2.header_writes = [512, 768] := by
  have h1 : ∀ s : TrxSys, (get_new_trx_id s).1 = s.m_max_trx_id := by
    intro s
    rw [get_new_trx_id]
    dsimp only
    split <;> rfl
  have h2 : ∀ s : TrxSys,
      (get_new_trx_id s).2.m_max_trx_id = s.m_max_trx_id + 1 := by
    intro s
    rw [get_new_trx_id]
    dsimp only
    split <;> rfl
  have h3 : ∀ s : TrxSys, (get_new_trx_id s).2.header_writes =
      s.header_writes ++
        (if s.m_max_trx_id % TRX_SYS_TRX_ID_WRITE_MARGIN = 0 then
           [s.m_max_trx_id + TRX_SYS_TRX_ID_WRITE_MARGIN]
         else []) := by
    intro s
    rw [get_new_trx_id]
    dsimp only
    split <;> rename_i hdiv <;> simp [flush_max_trx_id, hdiv]
  refine ⟨h1, h2, h3, ?_, by decide, by decide⟩
  intro s
  rw [h1, h2, h1]

/-- C6: row_undo_search_clust_to_pcur returns false iff the search misses or
the landing record's roll pointer differs from the node's; on success the row
image (and, for MODIFY, the pre-image) is built and the pcur position stored;
the mini-transaction is committed on every path. -/
theorem claim_C6_undo_search (e : UndoEnv) (node : UndoNode) :
    ((row_undo_search_clust_to_pcur e node).1 = false ↔
      (e.found = false ∨ node.roll_ptr ≠ e.rec_roll_ptr)) ∧
    (row_undo_search_clust_to_pcur e node).2.2 = MtrState.MTR_COMMITTED ∧
    ((row_undo_search_clust_to_pcur e node).1 = true →
      (row_undo_search_clust_to_pcur e node).2.1.row = some e.built_row ∧
      (node.update = true →
        (row_undo_search_clust_to_pcur e node).2.1.undo_row =
          some (e.replace e.built_row)) ∧
      (node.update = false →
        (row_undo_search_clust_to_pcur e node).2.1.undo_row = none) ∧
      (row_undo_search_clust_to_pcur e node).2.1.pcur_stored = true) := by
  rw [row_undo_search_clust_to_pcur]
  split
  · rename_i hmiss
    refine ⟨⟨fun _ => ?_, fun _ => rfl⟩, rfl, fun h => by simp at h⟩
    simpa using hmiss
  · rename_i hhitn
    push_neg at hhitn
    refine ⟨⟨fun h => by simp at h, fun hc => ?_⟩, rfl, fun _ => ?_⟩
    · rcases hc with hc | hc
      · exact absurd hhitn.1 (by simp [hc])
      · exact absurd hhitn.2 hc
    · refine ⟨?_, fun hu => ?_, fun hu => ?_, ?_⟩
      · cases hu : node.update <;> simp [hu]
      · simp [hu]
      · simp [hu]
      · cases hu : node.update <;> simp [hu]

/-- Witness for C6: a MODIFY undo node whose roll pointer matches the landing
record. -/
theorem claim_C6_witness :
    (row_undo_search_clust_to_pcur
      ⟨true, 11, [1, 2], some 5, fun row => 0 :: row, some 6⟩
      ⟨11, true, none, none, none, none, false⟩).1 = true ∧
    (row_undo_search_clust_to_pcur
      ⟨true, 11, [1, 2], some 5, fun row => 0 :: row, some 6⟩
      ⟨11, true, none, none, none, none, false⟩).2.1.row = some [1, 2] ∧
    (row_undo_search_clust_to_pcur
      ⟨true, 11, [1, 2], some 5, fun row => 0 :: row, some 6⟩
      ⟨11, true, none, none, none, none, false⟩).2.1.undo_row =
        some [0, 1, 2] ∧
    (row_undo_search_clust_to_pcur
      ⟨true, 11, [1, 2], some 5, fun row => 0 :: row, some 6⟩
      ⟨11, true, none, none, none, none, false⟩).2.1.pcur_stored = true ∧
    (row_undo_search_clust_to_pcur
      ⟨true, 11, [1, 2], some 5, fun row => 0 :: row, some 6⟩
      ⟨11, true, none, none, none, none, false⟩).2.2 =
        MtrState.MTR_COMMITTED := by
  have h := claim_C6_undo_search
    ⟨true, 11, [1, 2], some 5, fun row => 0 :: row, some 6⟩
    ⟨11, true, none, none, none, none, false⟩
  obtain ⟨hrow, himg⟩ := h.2.2 (by decide)
  exact ⟨by decide, hrow, himg.1 (by decide), himg.2.2, h.2.1⟩

/-- The duplicate-fold scan fails exactly on chains with no matching fold. -/
lemma ha_chain_update_first_of_no_dup (fold data : Nat) (l : List HaNode)
    (h : ∀ n ∈ l, n.fold ≠ fold) :
    ha_chain_update_first fold data l = none := by
  induction l with
  | nil => rfl
  | cons a t ih =>
    rw [ha_chain_update_first, if_neg (h a (by simp)),
      ih (fun n hn => h n (by simp [hn]))]
    rfl

/-- On a chain with a matching fold, the duplicate-fold scan rewrites the
first matching node's data pointer in place. -/
lemma ha_chain_update_first_spec (fold data : Nat) (l : List HaNode)
    (h : ∃ n ∈ l, n.fold = fold) :
    ∃ l₁ n l₂, l = l₁ ++ n :: l₂ ∧ (∀ m ∈ l₁, m.fold ≠ fold) ∧ n.fold = fold ∧
      ha_chain_update_first fold data l =
        some (l₁ ++ { n with data := data } :: l₂) := by
  induction l with
  | nil => simp at h
  | cons a t ih =>
    by_cases ha : a.fold = fold
    · exact ⟨[], a, t, by simp, by simp, ha,
        by rw [ha_chain_update_first, if_pos ha]; rfl⟩
    · have h' : ∃ n ∈ t, n.fold = fold := by
        rcases h with ⟨n, hn, hf⟩
        rcases List.mem_cons.mp hn with rfl | hmem
        · exact absurd hf ha
        · exact ⟨n, hmem, hf⟩
      obtain ⟨l₁, n, l₂, heq, hnone, hf, hupd⟩ := ih h'
      refine ⟨a :: l₁, n, l₂, by simp [heq], ?_, hf, ?_⟩
      · intro m hm
        rcases List.mem_cons.mp hm with rfl | hm2
        · exact ha
        · exact hnone m hm2
      · rw [ha_chain_update_first, if_neg ha, hupd]
        rfl

/-- C7: ha_insert_for_fold_func with non-null data on a real table.  If the
fold's chain already carries the fold, the first such node's data pointer is
rewritten in place (no node added, chain length unchanged) and true is
returned.  Otherwise a fresh node is appended at the end of the chain exactly
when the arena allocation succeeds, and the return value is false iff that
allocation fails (leaving the table untouched). -/
theorem claim_C7_ha_insert (alloc_ok : Bool) (t : HashTable) (fold data : Nat)
    (_hdata : data ≠ 0) (_hcells : 0 < hash_get_n_cells t) :
    ((∃ n ∈ t.cells.getD (hash_calc_hash fold t) [], n.fold = fold) →
       (ha_insert_for_fold_func alloc_ok t fold data).1 = true ∧
       ∃ l₁ n l₂, t.cells.getD (hash_calc_hash fold t) [] = l₁ ++ n :: l₂ ∧
         (∀ m ∈ l₁, m.fold ≠ fold) ∧ n.fold = fold ∧
         (ha_insert_for_fold_func alloc_ok t fold data).2.cells =
           t.cells.set (hash_calc_hash fold t)
             (l₁ ++ { n with data := data } :: l₂) ∧
         (l₁ ++ { n with data := data } :: l₂).length =
           (t.cells.getD (hash_calc_hash fold t) []).length) ∧
    ((∀ n ∈ t.cells.getD (hash_calc_hash fold t) [], n.fold ≠ fold) →
       (ha_insert_for_fold_func alloc_ok t fold data).1 = alloc_ok ∧
       (alloc_ok = true →
         (ha_insert_for_fold_func alloc_ok t fold data).2.cells =
           t.cells.set (hash_calc_hash fold t)
             (t.cells.getD (hash_calc_hash fold t) [] ++ [⟨fold, data⟩])) ∧
       (alloc_ok = false →
         (ha_insert_for_fold_func alloc_ok t fold data).2 = t)) := by
  constructor
  · intro hdup
    obtain ⟨l₁, n, l₂, heq, hnone, hf, hupd⟩ :=
      ha_chain_update_first_spec fold data
        (t.cells.getD (hash_calc_hash fold t) []) hdup
    rw [ha_insert_for_fold_func]
    rw [hupd]
    refine ⟨rfl, l₁, n, l₂, heq, hnone, hf, rfl, ?_⟩
    rw [heq]
    simp
  · intro hnodup
    have hupd := ha_chain_update_first_of_no_dup fold data
      (t.cells.getD (hash_calc_hash fold t) []) hnodup
    rw [ha_insert_for_fold_func]
    rw [hupd]
    cases alloc_ok
    · exact ⟨rfl, fun h => by simp at h, fun _ => rfl⟩
    · exact ⟨rfl, fun _ => rfl, fun h => by simp at h⟩

/-- Witness for C7: a duplicate-fold insert rewrites in place and a
fresh-fold insert on an exhausted arena is rejected. -/
theorem claim_C7_witness :
    (ha_insert_for_fold_func true ⟨[[⟨4, 1⟩, ⟨6, 2⟩], []]⟩ 4 9).1 = true ∧
    (ha_insert_for_fold_func true ⟨[[⟨4, 1⟩, ⟨6, 2⟩], []]⟩ 4 9).2.cells =
      [[⟨4, 9⟩, ⟨6, 2⟩], []] ∧
    (ha_insert_for_fold_func false ⟨[[⟨6, 2⟩], []]⟩ 4 9).1 = false ∧
    (ha_insert_for_fold_func false ⟨[[⟨6, 2⟩], []]⟩ 4 9).2 =
      (⟨[[⟨6, 2⟩], []]⟩ : HashTable) := by
  have hdup := (claim_C7_ha_insert true ⟨[[⟨4, 1⟩, ⟨6, 2⟩], []]⟩ 4 9
    (by decide) (by decide)).1 ⟨⟨4, 1⟩, by decide, rfl⟩
  have hmiss := (claim_C7_ha_insert false ⟨[[⟨6, 2⟩], []]⟩ 4 9
    (by decide) (by decide)).2 (by decide)
  exact ⟨hdup.1, by decide, hmiss.1, hmiss.2.2 rfl⟩

/-- C8: btr_pcur_open_on_user_rec_func fails fast (ut_error, modelled none)
for search modes PAGE_CUR_L and PAGE_CUR_LE; for PAGE_CUR_G and PAGE_CUR_GE
it yields the opened cursor, advanced to the next user record when the search
landed after the last record on the page. -/
theorem claim_C8_open_on_user_rec (opened : BtrPcur)
    (advance : BtrPcur → BtrPcur) (mode : SrchMode) :
    ((mode = SrchMode.PAGE_CUR_L ∨ mode = SrchMode.PAGE_CUR_LE) →
       btr_pcur_open_on_user_rec_func opened advance mode = none) ∧
    ((mode = SrchMode.PAGE_CUR_G ∨ mode = SrchMode.PAGE_CUR_GE) →
       btr_pcur_open_on_user_rec_func opened advance mode =
         some (if btr_pcur_is_after_last_on_page opened then advance opened
               else opened)) := by
  cases mode
  case PAGE_CUR_G =>
    refine ⟨fun h => by simp at h, fun _ => ?_⟩
    rw [btr_pcur_open_on_user_rec_func]
    split <;> simp [*]
  case PAGE_CUR_GE =>
    refine ⟨fun h => by simp at h, fun _ => ?_⟩
    rw [btr_pcur_open_on_user_rec_func]
    split <;> simp [*]
  case PAGE_CUR_L =>
    exact ⟨fun _ => rfl, fun h => by simp at h⟩
  case PAGE_CUR_LE =>
    exact ⟨fun _ => rfl, fun h => by simp at h⟩

/-- Witness for C8: the LE mode is refused; the G mode on a cursor landing at
the supremum advances to the next user record. -/
theorem claim_C8_witness :
    btr_pcur_open_on_user_rec_func fix_sup
        (fun c => { c with page_pos := PagePos.user 0, cur_block_id := 1 })
        SrchMode.PAGE_CUR_LE = none ∧
    btr_pcur_open_on_user_rec_func fix_sup
        (fun c => { c with page_pos := PagePos.user 0, cur_block_id := 1 })
        SrchMode.PAGE_CUR_G =
      some { fix_sup with page_pos := PagePos.user 0, cur_block_id := 1 } :=
  ⟨(claim_C8_open_on_user_rec fix_sup
      (fun c => { c with page_pos := PagePos.user 0, cur_block_id := 1 })
      SrchMode.PAGE_CUR_LE).1 (Or.inr rfl),
   by
    rw [(claim_C8_open_on_user_rec fix_sup
      (fun c => { c with page_pos := PagePos.user 0, cur_block_id := 1 })
      SrchMode.PAGE_CUR_G).2 (Or.inl rfl)]
    decide⟩

end EmbeddedInnoDB
